import Mathlib

/-!
Verification of the SQL chatbot core (app.py): query validation, query
execution, the two-stage pipeline orchestration, and the UI-level error
handling, as a shallow embedding. Python strings are modelled as lists of
characters; a Python function that can raise is modelled as returning
Except Str, with Except.error carrying str(e).
-/

abbrev Str := List Char

/-- The backtick character (code point 96). -/
def btick : Char := Char.ofNat 96

/-- The apostrophe character (code point 39). -/
def apos : Char := Char.ofNat 39

/-- The whitespace characters removed by Python str.strip (ASCII fragment). -/
def isPySpace (c : Char) : Bool :=
  c == ' ' || c == '\t' || c == '\n' || c == '\r' || c == '\x0b' || c == '\x0c'

/-- Python str.lstrip. -/
def pyStripL (s : Str) : Str := s.dropWhile isPySpace

/-- Python str.rstrip. -/
def pyStripR (s : Str) : Str := s.rdropWhile isPySpace

/-- Python str.strip. -/
def pyStrip (s : Str) : Str := pyStripR (pyStripL s)

/-- Python str.upper, character-wise (ASCII range). -/
def pyUpper (s : Str) : Str := s.map Char.toUpper

/-- Python str.lower, character-wise (ASCII range). -/
def pyLower (s : Str) : Str := s.map Char.toLower

/-- Left-to-right scan implementing Python str.replace(pat, "") with empty
replacement: skip counts remaining characters of a matched occurrence that
must still be consumed without being emitted. -/
def goSkip (pat : Str) : Nat → Str → Str
  | _, [] => []
  | k+1, _ :: rest => goSkip pat k rest
  | 0, c :: rest =>
    if pat.isPrefixOf (c :: rest) then goSkip pat (pat.length - 1) rest
    else c :: goSkip pat 0 rest

/-- Python str.replace(pat, ""): delete every occurrence of pat, scanning
left to right over non-overlapping matches. -/
def removeAll (pat s : Str) : Str := goSkip pat 0 s

/-- Python substring membership: the `in` operator on str. -/
def containsSub (pat s : Str) : Bool :=
  pat.isPrefixOf s ||
    match s with
    | [] => false
    | _ :: t => containsSub pat t

/-- The fenced-markdown marker removed first by validate_sql_query. -/
def fence_sql : Str := "```sql".data

/-- The bare markdown fence marker removed second. -/
def fence : Str := "```".data

/-- app.py line 21: the SQL statement keyword allow-list. -/
def valid_keywords : List Str :=
  ["SELECT".data, "INSERT".data, "UPDATE".data, "DELETE".data,
   "CREATE".data, "DROP".data, "ALTER".data, "WITH".data]

/-- The text cleaning performed by validate_sql_query (app.py lines 22-24):
strip, remove markdown code-block markers, strip again. -/
def cleanQuery (query : Str) : Str :=
  pyStrip (removeAll fence (removeAll fence_sql (pyStrip query)))

/-- The allow-list check of app.py line 26: the uppercased cleaned text must
start with one of the keywords. -/
def startsWithAllowed (q : Str) : Bool :=
  valid_keywords.any (fun k => k.isPrefixOf (pyUpper q))

/-- app.py line 27: the head of the ValueError message. -/
def invalidMsgHead : Str := "Invalid SQL query generated: ".data

/-- app.py lines 20-28: validate_sql_query. The raised ValueError is
modelled as Except.error carrying the exception text. -/
def validate_sql_query (query : Str) : Except Str Str :=
  if startsWithAllowed (cleanQuery query) then Except.ok (cleanQuery query)
  else Except.error (invalidMsgHead ++ cleanQuery query)

/-- The database collaborator (SQLDatabase handle): schema introspection and
a query runner, either of which may raise. -/
structure DB where
  get_table_info : Except Str Str
  run : Str → Except Str Str

/-- Python try/except around an exception-monad body. -/
def tryExceptStr (body : Except Str Str) (handler : Str → Except Str Str) :
    Except Str Str :=
  match body with
  | Except.ok v => Except.ok v
  | Except.error e => handler e

/-- app.py line 36: the head of the executor error string. -/
def sqlErrMsgHead : Str := "Error executing SQL query: ".data

/-- app.py lines 30-36: execute_sql_and_get_response. The try block first
validates, then runs the query; any exception is converted to a result
string. -/
def execute_sql_and_get_response (db : DB) (query : Str) : Except Str Str :=
  tryExceptStr
    (do
      let q ← validate_sql_query query
      db.run q)
    (fun e => Except.ok (sqlErrMsgHead ++ e))

/-- Generation prompt template, up to the schema slot (app.py lines 41-48). -/
def sqlPromptPre : Str :=
  "\n    Based on the provided table schema and the user".data ++ [apos] ++
  "s question, generate a valid SQL query.\n    Follow these rules:\n    1. If the question is about column counts/names, use INFORMATION_SCHEMA.\n    2. If the question is about record counts, use COUNT(*).\n    3. Ensure the SQL query is returned as plain text without any markdown formatting.\n    \n    Schema: ".data

/-- Generation prompt template between the schema and question slots. -/
def sqlPromptMid : Str := "\n    Question: ".data

/-- Generation prompt template tail. -/
def sqlPromptEnd : Str := "\n    SQL Query:".data

/-- The formatted generation prompt with schema and question substituted. -/
def sqlPrompt (schema question : Str) : Str :=
  sqlPromptPre ++ schema ++ sqlPromptMid ++ question ++ sqlPromptEnd

/-- Synthesis prompt template, up to the schema slot (app.py lines 86-95). -/
def ansPromptPre : Str :=
  "\n    You are an exceptional assistant. Based on the schema, question, SQL query, and SQL response, \n    generate a natural language answer that reflects the data accurately.\n    \n    Schema: ".data

/-- Synthesis prompt template before the question slot. -/
def ansPromptQ : Str := "\n    Question: ".data

/-- Synthesis prompt template before the query slot. -/
def ansPromptQu : Str := "\n    SQL Query: ".data

/-- Synthesis prompt template before the response slot. -/
def ansPromptR : Str := "\n    SQL Response: ".data

/-- Synthesis prompt template tail. -/
def ansPromptEnd : Str := "\n\n    Answer:".data

/-- The formatted synthesis prompt with schema, question, query and
execution result substituted. -/
def answerPrompt (schema question query response : Str) : Str :=
  ansPromptPre ++ schema ++ ansPromptQ ++ question ++ ansPromptQu ++ query ++
    ansPromptR ++ response ++ ansPromptEnd

/-- app.py line 76: the acknowledgement and greeting vocabulary. -/
def praising_words : List Str :=
  ["ok".data, "thank you".data, "thanks".data, "great".data, "awesome".data,
   "nice".data, "well done".data, "cool".data]

/-- app.py line 77: any vocabulary word occurs in the lowercased message. -/
def isPraising (user_query : Str) : Bool :=
  praising_words.any (fun word => containsSub word (pyLower user_query))

/-- app.py line 78: the fixed canned reply. -/
def cannedReply : Str :=
  "You".data ++ [apos] ++ "re welcome! I".data ++ [apos] ++
    "m here to help. 😊".data

/-- app.py line 82: missing-credential message. -/
def apiKeyMissingMsg : Str :=
  "API key not configured. Please check your .env file.".data

/-- app.py line 113: the head of the orchestrator error message. -/
def chainErrMsgHead : Str := "Error in chain invocation: ".data

/-- The langchain pipeline built in get_response (app.py lines 100-108,
with get_sql_chain of lines 68-73 inlined): fetch the schema, generate the
SQL text, refetch the schema, execute, then synthesize. gen and synth are
the two ChatGroq model invocations. -/
def run_chain (db : DB) (gen synth : Str → Except Str Str) (question : Str) :
    Except Str Str := do
  let schema1 ← db.get_table_info
  let query ← gen (sqlPrompt schema1 question)
  let schema ← db.get_table_info
  let response ← execute_sql_and_get_response db query
  synth (answerPrompt schema question query response)

/-- app.py lines 75-113: get_response. -/
def get_response (gen synth : Str → Except Str Str) (user_query : Str)
    (db : DB) (apiKey : Option Str) : Str :=
  if isPraising user_query then cannedReply
  else
    match apiKey with
    | none => apiKeyMissingMsg
    | some _ =>
      match run_chain db gen synth user_query with
      | Except.ok answer => answer
      | Except.error e => chainErrMsgHead ++ e

/-- Chat history entries (langchain AIMessage / HumanMessage). -/
inductive ChatMessage
  | ai (content : Str)
  | human (content : Str)

/-- app.py line 176: the connect-first warning. -/
def connectFirstMsg : Str :=
  "Please connect to a database in the sidebar first!".data

/-- app.py lines 166-185: the chat input handler. The user message is
appended to the history; if no connection handle is in the session the
fixed warning is appended and get_response is never invoked; otherwise the
pipeline response is appended. -/
def handle_chat_input (gen synth : Str → Except Str Str) (apiKey : Option Str)
    (dbSession : Option DB) (chat_history : List ChatMessage)
    (user_query : Str) : List ChatMessage :=
  let history := chat_history ++ [ChatMessage.human user_query]
  match dbSession with
  | none => history ++ [ChatMessage.ai connectFirstMsg]
  | some db =>
    history ++ [ChatMessage.ai (get_response gen synth user_query db apiKey)]

/-- app.py line 145. -/
def dbNotFoundMsg : Str :=
  "Database not found. Please check the database name and try again.".data

/-- app.py line 147. -/
def accessDeniedMsg : Str :=
  "Access denied. Please verify your username and password.".data

/-- app.py line 149. -/
def cannotConnectMsg : Str :=
  "Cannot connect to the database server. Please check the host and port.".data

/-- app.py line 151. -/
def genericConnectFailMsg : Str :=
  "Connection failed. Please verify your settings and try again.".data

/-- Error markers tested by the Connect handler (app.py lines 144-148). -/
def pat1049 : Str := "1049".data

/-- Marker for an unknown database. -/
def patUnknownDb : Str := "Unknown database".data

/-- Marker for a denied login. -/
def pat1045 : Str := "1045".data

/-- Marker for a denied login, textual form. -/
def patAccessDenied : Str := "Access denied".data

/-- Marker for an unreachable server. -/
def pat2003 : Str := "2003".data

/-- Marker for an unreachable server, textual form. -/
def patCantConnect : Str := "Can".data ++ [apos] ++ "t connect".data

/-- app.py lines 141-151: classification of connection failures in the
Connect button handler, mapping the error text to the user-facing message. -/
def classify_connection_error (error_message : Str) : Str :=
  if containsSub pat1049 error_message || containsSub patUnknownDb error_message then
    dbNotFoundMsg
  else if containsSub pat1045 error_message || containsSub patAccessDenied error_message then
    accessDeniedMsg
  else if containsSub pat2003 error_message || containsSub patCantConnect error_message then
    cannotConnectMsg
  else genericConnectFailMsg


/-! ### Basic lemmas about the replace scan and substring test -/

theorem goSkip_drop (pat : Str) (s : Str) :
    ∀ k : Nat, goSkip pat k s = goSkip pat 0 (s.drop k) := by
  induction s with
  | nil => intro k; cases k <;> rfl
  | cons c t ih =>
    intro k
    cases k with
    | zero => rfl
    | succ k =>
      simp only [goSkip, List.drop_succ_cons]
      exact ih k

theorem removeAll_nil (pat : Str) : removeAll pat [] = [] := rfl

theorem removeAll_cons (pat : Str) (c : Char) (rest : Str) :
    removeAll pat (c :: rest) =
      if pat.isPrefixOf (c :: rest) then removeAll pat (rest.drop (pat.length - 1))
      else c :: removeAll pat rest := by
  show goSkip pat 0 (c :: rest) = _
  simp only [goSkip]
  rw [goSkip_drop pat rest (pat.length - 1)]
  rfl

theorem removeAll_of_not_sub {pat : Str} : ∀ {s : Str}, ¬ pat <:+: s → removeAll pat s = s := by
  intro s
  induction s with
  | nil => intro _; rfl
  | cons c t ih =>
    intro h
    have hb : pat.isPrefixOf (c :: t) ≠ true := fun hb =>
      h ( List.IsPrefix.isInfix ( List.isPrefixOf_iff_prefix.mp hb))
    rw [removeAll_cons, if_neg hb,
      ih (fun hi => h (List.infix_cons_iff.mpr (Or.inr hi)))]

theorem containsSub_iff {pat : Str} : ∀ {s : Str}, containsSub pat s = true ↔ pat <:+: s := by
  intro s
  induction s with
  | nil => simp [containsSub]
  | cons c t ih =>
    rw [containsSub]
    simp [ih, List.infix_cons_iff]

instance decPre (l₁ l₂ : Str) : Decidable (l₁ <+: l₂) :=
  decidable_of_iff (l₁.isPrefixOf l₂ = true) List.isPrefixOf_iff_prefix

/-! ### Lemmas about stripping -/

theorem pyStripL_idem (s : Str) : pyStripL (pyStripL s) = pyStripL s := by
  apply List.dropWhile_idempotent

theorem pyStripR_idem (s : Str) : pyStripR (pyStripR s) = pyStripR s := by
  apply List.rdropWhile_idempotent

theorem pyStripR_pre (s : Str) : pyStripR s <+: s := by
  apply List.rdropWhile_prefix

theorem pyStripL_suf (s : Str) : pyStripL s <:+ s := by
  apply List.dropWhile_suffix

theorem pyStrip_pre_stripL (s : Str) : pyStrip s <+: pyStripL s := by
  apply List.rdropWhile_prefix

theorem pyStrip_sub_self (s : Str) : pyStrip s <:+: s := by
  obtain ⟨r, hr⟩ := pyStrip_pre_stripL s
  obtain ⟨u, hu⟩ := pyStripL_suf s
  exact ⟨u, r, by rw [List.append_assoc, hr]; exact hu⟩

theorem pyStripL_pyStrip (s : Str) : pyStripL (pyStrip s) = pyStrip s := by
  have hw : List.dropWhile isPySpace (pyStripL s) = pyStripL s := pyStripL_idem s
  obtain ⟨r, hr⟩ := pyStrip_pre_stripL s
  cases hc : pyStrip s with
  | nil => rfl
  | cons a t =>
    have hsplit : pyStripL s = a :: (t ++ r) := by
      rw [← hr, hc, List.cons_append]
    have hpa : isPySpace a = false := by
      by_contra hpa
      rw [Bool.not_eq_false] at hpa
      rw [hsplit, List.dropWhile_cons_of_pos hpa] at hw
      have hlen : (List.dropWhile isPySpace (t ++ r)).length ≤ (t ++ r).length :=
        List.Sublist.length_le
          (List.IsSuffix.sublist (@List.dropWhile_suffix Char (t ++ r) isPySpace))
      rw [hw] at hlen
      simp at hlen
    simp [pyStripL, hpa]

theorem pyStripR_pyStrip (s : Str) : pyStripR (pyStrip s) = pyStrip s := by
  show pyStripR (pyStripR (pyStripL s)) = _
  exact pyStripR_idem _

theorem pyStrip_idem (s : Str) : pyStrip (pyStrip s) = pyStrip s := by
  show pyStripR (pyStripL (pyStrip s)) = _
  rw [pyStripL_pyStrip, pyStripR_pyStrip]

/-! ### No fence marker survives its own removal -/

theorem fence_chars : fence = [btick, btick, btick] := by decide

theorem fence_sql_chars : fence_sql = [btick, btick, btick, 's', 'q', 'l'] := by decide

theorem b1_pre {c : Char} {rest : Str} : ([btick] <+: c :: rest) ↔ btick = c := by
  simp [List.cons_prefix_cons]

theorem b2_pre {c : Char} {rest : Str} :
    ([btick, btick] <+: c :: rest) ↔ btick = c ∧ [btick] <+: rest := by
  simp [List.cons_prefix_cons]

theorem b3_pre {c : Char} {rest : Str} :
    (fence <+: c :: rest) ↔ btick = c ∧ [btick, btick] <+: rest := by
  rw [fence_chars]
  simp [List.cons_prefix_cons]

theorem removeAll_fence_props :
    ∀ n (s : Str), s.length ≤ n →
      (¬ fence <:+: removeAll fence s) ∧
      (¬ [btick, btick] <+: s → ¬ [btick, btick] <+: removeAll fence s) ∧
      (¬ [btick] <+: s → ¬ [btick] <+: removeAll fence s) := by
  intro n
  induction n with
  | zero =>
    intro s hs
    have hnil : s = [] := List.eq_nil_of_length_eq_zero (Nat.le_zero.mp hs)
    subst hnil
    refine ⟨by rw [removeAll_nil]; decide, ?_, ?_⟩ <;>
      · rw [removeAll_nil]; exact fun h => h
  | succ n ih =>
    intro s hs
    cases s with
    | nil =>
      refine ⟨by rw [removeAll_nil]; decide, ?_, ?_⟩ <;>
        · rw [removeAll_nil]; exact fun h => h
    | cons c rest =>
      have hr : rest.length ≤ n := by
        simp only [List.length_cons] at hs
        omega
      obtain ⟨P, Q1, Q2⟩ := ih rest hr
      by_cases hb : fence.isPrefixOf (c :: rest) = true
      · have hp : fence <+: c :: rest := List.isPrefixOf_iff_prefix.mp hb
        have heq : removeAll fence (c :: rest) =
            removeAll fence (rest.drop (fence.length - 1)) := by
          rw [removeAll_cons, if_pos hb]
        have hd : (rest.drop (fence.length - 1)).length ≤ n := by
          rw [List.length_drop]; omega
        obtain ⟨P', _, _⟩ := ih _ hd
        refine ⟨by rw [heq]; exact P', ?_, ?_⟩
        · intro h2 _
          exact h2 (List.IsPrefix.trans (by decide) hp)
        · intro h1 _
          exact h1 (List.IsPrefix.trans (by decide) hp)
      · have hnp : ¬ fence <+: c :: rest := fun hc =>
          hb ( List.isPrefixOf_iff_prefix.mpr hc)
        have heq : removeAll fence (c :: rest) = c :: removeAll fence rest := by
          rw [removeAll_cons, if_neg hb]
        refine ⟨?_, ?_, ?_⟩
        · rw [heq]
          intro hinf
          rcases List.infix_cons_iff.mp hinf with hpre | hinf'
          · rcases b3_pre.mp hpre with ⟨hcb, hbb⟩
            exact Q1 (fun hbbrest => hnp (b3_pre.mpr ⟨hcb, hbbrest⟩)) hbb
          · exact P hinf'
        · intro h2
          rw [heq]
          intro hpre2
          rcases b2_pre.mp hpre2 with ⟨hcb, hb1⟩
          exact Q2 (fun hb1rest => h2 (b2_pre.mpr ⟨hcb, hb1rest⟩)) hb1
        · intro h1
          rw [heq]
          intro hpre1
          exact h1 (b1_pre.mpr (b1_pre.mp hpre1))

theorem no_fence_in_removeAll (s : Str) : ¬ fence <:+: removeAll fence s :=
  (removeAll_fence_props s.length s le_rfl).1

theorem clean_no_fence (q : Str) : ¬ fence <:+: cleanQuery q := by
  intro h
  unfold cleanQuery at h
  exact no_fence_in_removeAll _ (List.IsInfix.trans h (pyStrip_sub_self _))

/-! ### Occurrences across an append boundary -/

theorem prefix_append_cases : ∀ {l p m : Str}, p <+: l ++ m →
    p <+: l ∨ ∃ q, q ≠ [] ∧ p = l ++ q ∧ q <+: m := by
  intro l
  induction l with
  | nil =>
    intro p m h
    cases p with
    | nil => exact Or.inl List.nil_prefix
    | cons x xs =>
      exact Or.inr ⟨x :: xs, by simp, by simp, by simpa using h⟩
  | cons a l ih =>
    intro p m h
    cases p with
    | nil => exact Or.inl List.nil_prefix
    | cons x xs =>
      rw [List.cons_append, List.cons_prefix_cons] at h
      obtain ⟨rfl, h2⟩ := h
      rcases ih h2 with h3 | ⟨q, hq, rfl, hqm⟩
      · exact Or.inl (List.cons_prefix_cons.mpr ⟨rfl, h3⟩)
      · exact Or.inr ⟨q, hq, by rw [List.cons_append], hqm⟩

/-! ### Removing markers from a fence-wrapped clean text -/

theorem removeAll_fence_tail : ∀ (y : Str), ¬ fence <:+: y →
    removeAll fence (y ++ '\n' :: fence) = y ++ ['\n'] := by
  intro y
  induction y with
  | nil => intro _; decide
  | cons a y ih =>
    intro h
    have hy : ¬ fence <:+: y := fun hi => h (List.infix_cons_iff.mpr (Or.inr hi))
    have hnomatch : fence.isPrefixOf (a :: (y ++ '\n' :: fence)) ≠ true := by
      intro hb
      have hp := List.isPrefixOf_iff_prefix.mp hb
      rcases b3_pre.mp hp with ⟨hab, hbb⟩
      rcases prefix_append_cases hbb with h3 | ⟨q, hq, heq, hqm⟩
      · exact h ( List.IsPrefix.isInfix (b3_pre.mpr ⟨hab, h3⟩))
      · have hqsuf : q <:+ [btick, btick] := ⟨y, heq.symm⟩
        have hdec : ∀ z ∈ ([btick, btick] : Str).tails, z <+: '\n' :: fence → z = [] := by
          decide
        exact hq (hdec q ((List.mem_tails q _).mpr hqsuf) hqm)
    rw [List.cons_append, removeAll_cons, if_neg hnomatch, ih hy]
    rfl

theorem not_fence_sql_in_tail : ∀ (y : Str), ¬ fence <:+: y →
    ¬ fence_sql <:+: (y ++ '\n' :: fence) := by
  intro y
  induction y with
  | nil => intro _; decide
  | cons a y ih =>
    intro h
    have hy : ¬ fence <:+: y := fun hi => h (List.infix_cons_iff.mpr (Or.inr hi))
    rw [List.cons_append]
    intro hinf
    rcases List.infix_cons_iff.mp hinf with hpre | hinf'
    · rw [fence_sql_chars] at hpre
      rcases List.cons_prefix_cons.mp hpre with ⟨hab, hrest⟩
      rcases prefix_append_cases hrest with h3 | ⟨q, hq, heq, hqm⟩
      · have hbb : [btick, btick] <+: y := List.IsPrefix.trans (by decide) h3
        exact h ( List.IsPrefix.isInfix (b3_pre.mpr ⟨hab, hbb⟩))
      · have hqsuf : q <:+ [btick, btick, 's', 'q', 'l'] := ⟨y, heq.symm⟩
        have hdec : ∀ z ∈ ([btick, btick, 's', 'q', 'l'] : Str).tails,
            z <+: '\n' :: fence → z = [] := by decide
        exact hq (hdec q ((List.mem_tails q _).mpr hqsuf) hqm)
    · exact ih hy hinf'

/-! ### Validator elimination and cleaning fixed points -/

theorem validate_ok_elim {q c : Str} (h : validate_sql_query q = Except.ok c) :
    c = cleanQuery q ∧ startsWithAllowed (cleanQuery q) = true := by
  unfold validate_sql_query at h
  by_cases hs : startsWithAllowed (cleanQuery q) = true
  · rw [if_pos hs] at h
    injection h with h2
    exact ⟨h2.symm, hs⟩
  · rw [if_neg hs] at h
    exact Except.noConfusion h

theorem validate_error_elim {q m : Str} (h : validate_sql_query q = Except.error m) :
    m = invalidMsgHead ++ cleanQuery q ∧ startsWithAllowed (cleanQuery q) = false := by
  unfold validate_sql_query at h
  by_cases hs : startsWithAllowed (cleanQuery q) = true
  · rw [if_pos hs] at h
    exact Except.noConfusion h
  · rw [if_neg hs] at h
    injection h with h2
    exact ⟨h2.symm, by simpa using hs⟩

theorem validate_of_pass {q : Str} (hs : startsWithAllowed (cleanQuery q) = true) :
    validate_sql_query q = Except.ok (cleanQuery q) := by
  unfold validate_sql_query
  rw [if_pos hs]

theorem validate_of_fail {q : Str} (hs : startsWithAllowed (cleanQuery q) = false) :
    validate_sql_query q = Except.error (invalidMsgHead ++ cleanQuery q) := by
  unfold validate_sql_query
  rw [if_neg (by simp [hs])]

theorem clean_no_fence_sql (q : Str) : ¬ fence_sql <:+: cleanQuery q := fun hi =>
  clean_no_fence q
    (List.IsInfix.trans ( List.IsPrefix.isInfix (by decide : fence <+: fence_sql)) hi)

theorem pyStripL_clean (q : Str) : pyStripL (cleanQuery q) = cleanQuery q :=
  pyStripL_pyStrip (removeAll fence (removeAll fence_sql (pyStrip q)))

theorem pyStripR_clean (q : Str) : pyStripR (cleanQuery q) = cleanQuery q :=
  pyStripR_pyStrip (removeAll fence (removeAll fence_sql (pyStrip q)))

theorem pyStrip_clean (q : Str) : pyStrip (cleanQuery q) = cleanQuery q :=
  pyStrip_idem (removeAll fence (removeAll fence_sql (pyStrip q)))

theorem clean_fixed (q : Str) : cleanQuery (cleanQuery q) = cleanQuery q := by
  show pyStrip (removeAll fence (removeAll fence_sql (pyStrip (cleanQuery q)))) = _
  rw [pyStrip_clean, removeAll_of_not_sub (clean_no_fence_sql q),
    removeAll_of_not_sub (clean_no_fence q), pyStrip_clean]

/-! ### Cleaning a fence-wrapped clean text -/

/-- A markdown code fence wrapped around a SQL text, in the form an LLM
emits it. -/
def fenceWrap (s : Str) : Str := fence_sql ++ '\n' :: (s ++ '\n' :: fence)

theorem stripL_head (a : Char) (c' : Str) (h : pyStripL (a :: c') = a :: c') :
    isPySpace a = false := by
  by_contra hpa
  rw [Bool.not_eq_false] at hpa
  unfold pyStripL at h
  rw [List.dropWhile_cons_of_pos hpa] at h
  have hle := List.Sublist.length_le
    (List.IsSuffix.sublist (@List.dropWhile_suffix Char c' isPySpace))
  rw [h] at hle
  simp at hle

theorem removeAll_head_match (p0 : Char) (p' t : Str) :
    removeAll (p0 :: p') ((p0 :: p') ++ t) = removeAll (p0 :: p') t := by
  have hmatch : (p0 :: p').isPrefixOf (p0 :: (p' ++ t)) = true := by
    apply List.isPrefixOf_iff_prefix.mpr
    rw [← List.cons_append]
    exact List.prefix_append _ _
  rw [List.cons_append, removeAll_cons, if_pos hmatch]
  simp [List.drop_left]

theorem pyStrip_wrap (c : Str) : pyStrip (fenceWrap c) = fenceWrap c := by
  have hL : pyStripL (fenceWrap c) = fenceWrap c := by
    unfold fenceWrap pyStripL
    rw [fence_sql_chars]
    rw [show ([btick, btick, btick, 's', 'q', 'l'] ++ '\n' :: (c ++ '\n' :: fence)) =
      btick :: ([btick, btick, 's', 'q', 'l'] ++ '\n' :: (c ++ '\n' :: fence)) from rfl]
    rw [List.dropWhile_cons_of_neg (by decide)]
  have hR : pyStripR (fenceWrap c) = fenceWrap c := by
    unfold fenceWrap pyStripR
    rw [show (fence_sql ++ '\n' :: (c ++ '\n' :: fence)) =
      ((fence_sql ++ '\n' :: (c ++ '\n' :: [btick, btick])) ++ [btick]) by
        rw [fence_chars]; simp]
    rw [List.rdropWhile_concat_neg isPySpace _ btick (by decide)]
  show pyStripR (pyStripL (fenceWrap c)) = fenceWrap c
  rw [hL, hR]

theorem pyStrip_sandwich {c : Str} (hsl : pyStripL c = c) (hsr : pyStripR c = c) :
    pyStrip ('\n' :: (c ++ ['\n'])) = c := by
  show pyStripR (List.dropWhile isPySpace ('\n' :: (c ++ ['\n']))) = c
  rw [List.dropWhile_cons_of_pos (by decide)]
  cases c with
  | nil => decide
  | cons a c' =>
    have ha : isPySpace a = false := stripL_head a c' hsl
    rw [List.cons_append, List.dropWhile_cons_of_neg (by simp [ha])]
    show List.rdropWhile isPySpace (a :: (c' ++ ['\n'])) = a :: c'
    rw [← List.cons_append,
      List.rdropWhile_concat_pos isPySpace (a :: c') '\n' (by decide)]
    exact hsr

theorem clean_fenceWrap_eq {c : Str} (hnf : ¬ fence <:+: c)
    (hsl : pyStripL c = c) (hsr : pyStripR c = c) :
    cleanQuery (fenceWrap c) = c := by
  show pyStrip (removeAll fence (removeAll fence_sql (pyStrip (fenceWrap c)))) = c
  rw [pyStrip_wrap]
  have h1 : removeAll fence_sql (fenceWrap c) = '\n' :: (c ++ '\n' :: fence) := by
    unfold fenceWrap
    rw [fence_sql_chars, removeAll_head_match btick [btick, btick, 's', 'q', 'l']]
    rw [← fence_sql_chars]
    apply removeAll_of_not_sub
    intro hinf
    rcases List.infix_cons_iff.mp hinf with hpre | hinf'
    · rw [fence_sql_chars] at hpre
      exact absurd (List.cons_prefix_cons.mp hpre).1 (by decide)
    · exact not_fence_sql_in_tail c hnf hinf'
  rw [h1]
  have hnm : fence.isPrefixOf ('\n' :: (c ++ '\n' :: fence)) ≠ true := by
    intro hb
    have hp := List.isPrefixOf_iff_prefix.mp hb
    rw [fence_chars] at hp
    exact absurd (List.cons_prefix_cons.mp hp).1 (by decide)
  rw [removeAll_cons, if_neg hnm, removeAll_fence_tail c hnf]
  exact pyStrip_sandwich hsl hsr

/-! ### Executor and pipeline evaluation lemmas -/

theorem exbind_ok (a : Str) (f : Str → Except Str Str) :
    ((Except.ok a : Except Str Str) >>= f) = f a := rfl

theorem exbind_err (e : Str) (f : Str → Except Str Str) :
    ((Except.error e : Except Str Str) >>= f) = Except.error e := rfl

theorem exec_of_error (db : DB) {q m : Str}
    (h : validate_sql_query q = Except.error m) :
    execute_sql_and_get_response db q = Except.ok (sqlErrMsgHead ++ m) := by
  unfold execute_sql_and_get_response
  rw [h]
  rfl

theorem exec_of_ok (db : DB) {q c : Str}
    (h : validate_sql_query q = Except.ok c) :
    execute_sql_and_get_response db q =
      tryExceptStr (db.run c) (fun e => Except.ok (sqlErrMsgHead ++ e)) := by
  unfold execute_sql_and_get_response
  rw [h]
  rfl

theorem run_chain_eq (db : DB) (gen synth : Str → Except Str Str) (q : Str) :
    run_chain db gen synth q =
      match db.get_table_info with
      | Except.error e => Except.error e
      | Except.ok schema1 =>
        match gen (sqlPrompt schema1 q) with
        | Except.error e => Except.error e
        | Except.ok query =>
          match db.get_table_info with
          | Except.error e => Except.error e
          | Except.ok schema =>
            match execute_sql_and_get_response db query with
            | Except.error e => Except.error e
            | Except.ok response => synth (answerPrompt schema q query response) := by
  unfold run_chain
  cases db.get_table_info with
  | error e => rfl
  | ok schema1 =>
    simp only [exbind_ok]
    cases gen (sqlPrompt schema1 q) with
    | error e => rfl
    | ok query =>
      simp only [exbind_ok]
      cases execute_sql_and_get_response db query with
      | error e => rfl
      | ok response => simp only [exbind_ok]

/-! ### Stub collaborators used by the concrete witnesses -/

/-- A stub connection: fixed schema text, run echoes the received query. -/
def dbStub : DB :=
  { get_table_info := Except.ok ("users(id, name)".data),
    run := fun s => Except.ok s }

/-- The pattern required to appear in the executor error result. -/
def invalidMarker : Str := "Invalid SQL query generated".data

/-- A generation stage stub that emits a markdown-fenced refusal. -/
def fencedRefusal : Str := "```sql\nI cannot answer that\n```".data

/-- Constant generation stub. -/
def genStub : Str → Except Str Str := fun _ => Except.ok fencedRefusal

/-- Constant synthesis answer. -/
def apologyAns : Str :=
  "I am sorry, I could not generate a SQL query for that question.".data

/-- Constant synthesis stub. -/
def synthStub : Str → Except Str Str := fun _ => Except.ok apologyAns

/-- A generation stub whose model call raises. -/
def genErr : Str → Except Str Str := fun _ => Except.error ("boom".data)

/-- A question with no acknowledgement word in it. -/
def qUsers : Str := "how many users are there".data

/-- The ValueError text produced for the fenced refusal. -/
def refusalErr : Str := invalidMsgHead ++ "I cannot answer that".data

/-! ### The claims -/

/-- C1: for every input string, validate_sql_query returns the cleaned text
(outer whitespace and markdown fence markers removed) exactly when the
cleaned text begins, case-insensitively, with an allow-listed keyword
(SELECT, INSERT, UPDATE, DELETE, CREATE, DROP, ALTER, WITH); any accepted
result is that cleaned text, and every other input fails with an error that
carries the offending cleaned text. -/
theorem c1_validator_accepts_iff_allowed (q : Str) :
    (validate_sql_query q = Except.ok (cleanQuery q) ↔
      startsWithAllowed (cleanQuery q) = true) ∧
    (∀ c, validate_sql_query q = Except.ok c → c = cleanQuery q) ∧
    (startsWithAllowed (cleanQuery q) = false →
      validate_sql_query q = Except.error (invalidMsgHead ++ cleanQuery q)) :=
  ⟨⟨fun h => (validate_ok_elim h).2, validate_of_pass⟩,
    fun _ h => (validate_ok_elim h).1, validate_of_fail⟩

theorem c1_witness :
    validate_sql_query ("hello".data) =
      Except.error (invalidMsgHead ++ cleanQuery ("hello".data)) :=
  (c1_validator_accepts_iff_allowed ("hello".data)).2.2 (by decide)

/-- C2: for every input text and every connection, including one whose run
method throws, execute_sql_and_get_response returns a text value and never
propagates an exception past its boundary. -/
theorem c2_executor_never_raises (db : DB) (query : Str) :
    ∃ s : Str, execute_sql_and_get_response db query = Except.ok s := by
  cases hv : validate_sql_query query with
  | error m => exact ⟨sqlErrMsgHead ++ m, exec_of_error db hv⟩
  | ok c =>
    rw [exec_of_ok db hv]
    cases hr : db.run c with
    | ok r => exact ⟨r, rfl⟩
    | error e => exact ⟨sqlErrMsgHead ++ e, rfl⟩

/-- C3: the run method of the connection is reached only when the
validator accepts: on a validation error the result of the executor is a
fixed string independent of the connection, and on acceptance the result is
exactly the guarded run invocation on the cleaned output of the validator. -/
theorem c3_no_execution_without_validation (q : Str) (db : DB) :
    (∀ m, validate_sql_query q = Except.error m →
      execute_sql_and_get_response db q = Except.ok (sqlErrMsgHead ++ m)) ∧
    (∀ c, validate_sql_query q = Except.ok c →
      execute_sql_and_get_response db q =
        tryExceptStr (db.run c) (fun e => Except.ok (sqlErrMsgHead ++ e))) :=
  ⟨fun _ h => exec_of_error db h, fun _ h => exec_of_ok db h⟩

theorem c3_witness :
    execute_sql_and_get_response dbStub ("DROP TABLE users".data) =
      tryExceptStr (dbStub.run ("DROP TABLE users".data))
        (fun e => Except.ok (sqlErrMsgHead ++ e)) :=
  (c3_no_execution_without_validation ("DROP TABLE users".data) dbStub).2
    ("DROP TABLE users".data) (by rfl)

/-- C4: when the generated text fails validation, the executor returns an
error string containing "Invalid SQL query generated" instead of throwing,
the synthesis stage still receives that string as the result, and the
pipeline still returns the synthesized answer. -/
theorem c4_invalid_query_still_synthesizes
    (db : DB) (gen synth : Str → Except Str Str)
    (schema q g m ans k : Str)
    (hpw : isPraising q = false)
    (hschema : db.get_table_info = Except.ok schema)
    (hgen : gen (sqlPrompt schema q) = Except.ok g)
    (hval : validate_sql_query g = Except.error m)
    (hsynth : synth (answerPrompt schema q g (sqlErrMsgHead ++ m)) = Except.ok ans) :
    get_response gen synth q db (some k) = ans ∧
    containsSub invalidMarker (sqlErrMsgHead ++ m) = true := by
  constructor
  · unfold get_response
    rw [if_neg (by simp [hpw]), run_chain_eq]
    simp only [hschema, hgen, exec_of_error db hval, hsynth]
  · rw [(validate_error_elim hval).1]
    apply containsSub_iff.mpr
    refine ⟨sqlErrMsgHead, ": ".data ++ cleanQuery g, ?_⟩
    have hsplit : invalidMsgHead = invalidMarker ++ ": ".data := by decide
    rw [hsplit]
    simp [List.append_assoc]

theorem c4_witness :
    get_response genStub synthStub qUsers dbStub (some ("key".data)) = apologyAns ∧
    containsSub invalidMarker (sqlErrMsgHead ++ refusalErr) = true :=
  c4_invalid_query_still_synthesizes dbStub genStub synthStub
    ("users(id, name)".data) qUsers fencedRefusal refusalErr apologyAns
    ("key".data) (by decide) rfl rfl (by rfl) rfl

/-- C5: if the lowercased message contains any word of the fixed
acknowledgement vocabulary, get_response returns the fixed canned reply,
independently of the generation stage, the synthesis stage, the connection
and the credential: neither pipeline stage is invoked. -/
theorem c5_praising_short_circuit (q : Str) (h : isPraising q = true) :
    ∀ (gen synth : Str → Except Str Str) (db : DB) (apiKey : Option Str),
      get_response gen synth q db apiKey = cannedReply := by
  intro gen synth db apiKey
  unfold get_response
  rw [if_pos h]

theorem c5_witness :
    get_response genStub synthStub ("thanks!".data) dbStub none = cannedReply :=
  c5_praising_short_circuit ("thanks!".data) (by decide) genStub synthStub
    dbStub none

/-- A question that merely contains "ok" inside the word "books". -/
def booksQuestion : Str := "how many books are there".data

/-- C6: the greeting check is a plain substring test, so "how many books
are there" matches via the "ok" inside "books" and receives the canned
reply with the whole pipeline skipped, even with no API key configured:
the check precedes the credential check. -/
theorem c6_substring_false_positive :
    containsSub ("ok".data) (pyLower booksQuestion) = true ∧
    (∀ (gen synth : Str → Except Str Str) (db : DB),
      get_response gen synth booksQuestion db none = cannedReply) ∧
    cannedReply ≠ apiKeyMissingMsg := by
  refine ⟨by decide, ?_, by decide⟩
  intro gen synth db
  unfold get_response
  rw [if_pos (by decide)]

/-- C7: an exception raised by any pipeline stage is caught once at the
orchestrator boundary and turned into the user-visible message
"Error in chain invocation: " followed by the exception detail. -/
theorem c7_chain_error_boundary (gen synth : Str → Except Str Str) (db : DB)
    (q e k : Str) (hp : isPraising q = false)
    (he : run_chain db gen synth q = Except.error e) :
    get_response gen synth q db (some k) = chainErrMsgHead ++ e := by
  unfold get_response
  rw [if_neg (by simp [hp])]
  simp only [he]

theorem c7_witness :
    get_response genErr synthStub qUsers dbStub (some ("key".data)) =
      chainErrMsgHead ++ "boom".data :=
  c7_chain_error_boundary genErr synthStub dbStub qUsers ("boom".data)
    ("key".data) (by decide) (by rfl)

/-- C8: without a session connection handle, the chat input handler appends
the user message and the fixed connect-first warning, and the result is
independent of the pipeline stages and the credential: get_response is
never invoked. -/
theorem c8_no_connection_short_circuit (gen synth : Str → Except Str Str)
    (apiKey : Option Str) (chat_history : List ChatMessage) (q : Str) :
    handle_chat_input gen synth apiKey none chat_history q =
      chat_history ++ [ChatMessage.human q, ChatMessage.ai connectFirstMsg] := by
  simp [handle_chat_input]

/-- C9: connection failures carrying the access-denied, unknown-database
and cannot-connect markers are classified into three pairwise distinct
user-facing messages. -/
theorem c9_connect_error_classification (e1 e2 e3 : Str)
    (h1a : containsSub patAccessDenied e1 = true)
    (h1b : containsSub pat1049 e1 = false)
    (h1c : containsSub patUnknownDb e1 = false)
    (h2 : containsSub patUnknownDb e2 = true)
    (h3a : containsSub patCantConnect e3 = true)
    (h3b : containsSub pat1049 e3 = false)
    (h3c : containsSub patUnknownDb e3 = false)
    (h3d : containsSub pat1045 e3 = false)
    (h3e : containsSub patAccessDenied e3 = false) :
    classify_connection_error e1 = accessDeniedMsg ∧
    classify_connection_error e2 = dbNotFoundMsg ∧
    classify_connection_error e3 = cannotConnectMsg ∧
    accessDeniedMsg ≠ dbNotFoundMsg ∧ accessDeniedMsg ≠ cannotConnectMsg ∧
    dbNotFoundMsg ≠ cannotConnectMsg := by
  refine ⟨?_, ?_, ?_, by decide, by decide, by decide⟩
  · unfold classify_connection_error
    rw [if_neg (by simp [h1b, h1c]), if_pos (by simp [h1a])]
  · unfold classify_connection_error
    rw [if_pos (by simp [h2])]
  · unfold classify_connection_error
    rw [if_neg (by simp [h3b, h3c]), if_neg (by simp [h3d, h3e]),
      if_pos (by simp [h3a])]

/-- A simulated access-denied connector error. -/
def errAccess : Str := "1045 (28000): Access denied for user root at localhost".data

/-- A simulated unknown-database connector error. -/
def errUnknown : Str := "1049 (42000): Unknown database testdb".data

/-- A simulated unreachable-host connector error. -/
def errCant : Str :=
  "2003 (HY000): ".data ++ patCantConnect ++ " to MySQL server on localhost".data

theorem c9_witness :
    classify_connection_error errAccess = accessDeniedMsg ∧
    classify_connection_error errUnknown = dbNotFoundMsg ∧
    classify_connection_error errCant = cannotConnectMsg ∧
    accessDeniedMsg ≠ dbNotFoundMsg ∧ accessDeniedMsg ≠ cannotConnectMsg ∧
    dbNotFoundMsg ≠ cannotConnectMsg :=
  c9_connect_error_classification errAccess errUnknown errCant
    (by decide) (by decide) (by decide) (by decide) (by decide) (by decide)
    (by decide) (by decide) (by decide)

/-- C10: fence stripping is idempotent: for every text the validator
accepts, validating the already-clean result again, and validating the same
result wrapped in a markdown code fence, both return exactly that clean
result. -/
theorem c10_fence_stripping_idempotent (q c : Str)
    (h : validate_sql_query q = Except.ok c) :
    validate_sql_query c = Except.ok c ∧
    validate_sql_query (fenceWrap c) = Except.ok c := by
  obtain ⟨hc, hs⟩ := validate_ok_elim h
  subst hc
  constructor
  · unfold validate_sql_query
    rw [clean_fixed q, if_pos hs]
  · unfold validate_sql_query
    rw [clean_fenceWrap_eq (clean_no_fence q) (pyStripL_clean q) (pyStripR_clean q),
      if_pos hs]

/-- A raw model output: fenced SQL with surrounding blanks. -/
def rawFenced : Str := "  ```sql\nSELECT * FROM users;\n```  ".data

/-- The corresponding clean SQL text. -/
def cleanSelect : Str := "SELECT * FROM users;".data

theorem c10_witness :
    validate_sql_query cleanSelect = Except.ok cleanSelect ∧
    validate_sql_query (fenceWrap cleanSelect) = Except.ok cleanSelect :=
  c10_fence_stripping_idempotent rawFenced cleanSelect (by rfl)
